import Mathlib

/-!
# Exoscale import post-processor: `PostProcessor.PostProcess`

A shallow embedding of `post-processor/exoscale-import/post-processor.go`.

`PostProcess` is stateful Go code: it mutates its receiver, calls out to the
Exoscale and AWS SDKs and to the Packer step runner, and inspects a string-keyed
state bag afterwards.  The embedding makes all of that explicit:

* the receiver is passed in and handed back (`Result.p`);
* every call that leaves the function is recorded, in order, in `Result.trace`;
* the SDK constructors and the runner are fields of `Env` (they are not code of
  this package), so every theorem holds for all behaviours of those collaborators;
* a failing Go type assertion or a nil dereference is the outcome `Outcome.panic`.
-/

namespace exoscaleimport

/-! ## Go strings and the `%q` verb -/

/-- The table `lowerhex` of `strconv`. -/
def lowerhex : List Char := "0123456789abcdef".data

/-- The hexadecimal digit `lowerhex[n]`. -/
def hexDigit (n : Nat) : Char := lowerhex.getD n '0'

/-- Go `strconv.IsPrint`: the Latin-1 fast path is spelled out in the library, the
rest is a table lookup which is left to the parameter `wide`. -/
def IsPrint (wide : Char → Bool) (r : Char) : Bool :=
  if r.toNat ≤ 0xFF then
    if 0x20 ≤ r.toNat ∧ r.toNat < 0x7F then true
    else if 0xA1 ≤ r.toNat ∧ r.toNat ≤ 0xFF then r.toNat != 0xAD
    else false
  else wide r

/-- Go `strconv.appendEscapedRune` with quote character `"` and both flags
`ASCIIonly` and `graphicOnly` off, as `%q` without flags uses it. -/
def appendEscapedRune (wide : Char → Bool) (buf : List Char) (r : Char) : List Char :=
  if r = '"' ∨ r = '\\' then buf ++ ['\\', r]
  else if IsPrint wide r then buf ++ [r]
  else if r.toNat = 7 then buf ++ ['\\', 'a']
  else if r.toNat = 8 then buf ++ ['\\', 'b']
  else if r.toNat = 12 then buf ++ ['\\', 'f']
  else if r.toNat = 10 then buf ++ ['\\', 'n']
  else if r.toNat = 13 then buf ++ ['\\', 'r']
  else if r.toNat = 9 then buf ++ ['\\', 't']
  else if r.toNat = 11 then buf ++ ['\\', 'v']
  else if r.toNat < 0x20 ∨ r.toNat = 0x7F then
    buf ++ ['\\', 'x', hexDigit (r.toNat / 16), hexDigit (r.toNat % 16)]
  else if r.toNat < 0x10000 then
    buf ++ ['\\', 'u'] ++ [12, 8, 4, 0].map (fun s => hexDigit (r.toNat / 2 ^ s % 16))
  else
    buf ++ ['\\', 'U'] ++
      [28, 24, 20, 16, 12, 8, 4, 0].map (fun s => hexDigit (r.toNat / 2 ^ s % 16))

/-- Go `strconv.Quote`, which is what `fmt` prints for a string under `%q`: an
opening quote, every rune escaped by `appendEscapedRune`, a closing quote.  A `String`
holds valid runes only, so the branch for a byte that is not valid UTF-8 has no
counterpart here. -/
def Quote (wide : Char → Bool) (s : String) : String :=
  ⟨(s.data.foldl (appendEscapedRune wide) ['"']) ++ ['"']⟩

/-- Go `strings.Contains msg sub`. -/
def Contains (msg sub : String) : Prop := sub.data <:+: msg.data

instance (msg sub : String) : Decidable (Contains msg sub) := by
  unfold Contains; infer_instance

/-! ## Errors -/

/-- A Go `error` value: `errors.New` / `fmt.Errorf` without `%w` give an
`errorString`, `fmt.Errorf` with `%w` gives a `wrapError` around its cause. -/
inductive GoError where
  | errorString (s : String)
  | wrapError (msg : String) (err : GoError)
  deriving DecidableEq, Repr

/-- The method `Error()`. -/
def GoError.Error : GoError → String
  | .errorString s => s
  | .wrapError msg _ => msg

/-- Go `errors.New`. -/
def errorsNew (text : String) : GoError := .errorString text

/-- Go `fmt.Errorf(format + ": %w", err)`. -/
def errorfWrap (text : String) (err : GoError) : GoError :=
  .wrapError (text ++ err.Error) err

/-! ## The data the function handles -/

/-- An `*egoscale.Template`. -/
structure Template where
  ID : String
  Zone : String
  deriving DecidableEq, Repr

/-- A `packer.Ui` handle. -/
structure Ui where
  name : String
  deriving DecidableEq, Repr

/-- The upstream `packer.Artifact` handed to the post-processor. -/
structure PackerArtifact where
  BuilderId : String
  Files : List String
  Id : String
  deriving DecidableEq, Repr

/-- A Go `interface{}` value as stored in the state bag. -/
inductive Value where
  | nil
  | ui (u : Ui)
  | artifact (a : PackerArtifact)
  | templates (ts : List Template)
  | error (e : GoError)
  | bool (b : Bool)
  | str (s : String)
  | strMap (m : List (String × String))
  deriving DecidableEq, Repr

/-- The type assertion `v.(error)`; `none` is the run-time panic. -/
def Value.assertError : Value → Option GoError
  | .error e => some e
  | _ => none

/-- The type assertion `v.([]*egoscale.Template)`; `none` is the run-time panic. -/
def Value.assertTemplates : Value → Option (List Template)
  | .templates ts => some ts
  | _ => none

/-- A `multistep.BasicStateBag`: a map from string keys to values. -/
abbrev BasicStateBag := List (String × Value)

/-- `new(multistep.BasicStateBag)`. -/
def BasicStateBag.new : BasicStateBag := []

/-- `state.Put(k, v)`. -/
def BasicStateBag.Put (b : BasicStateBag) (k : String) (v : Value) : BasicStateBag :=
  (k, v) :: b.filter (fun kv => kv.1 ≠ k)

/-- `state.GetOk(k)`: `some v` is `(v, true)`, `none` is `(nil, false)`. -/
def BasicStateBag.GetOk : BasicStateBag → String → Option Value
  | [], _ => none
  | (k', v) :: rest, k => if k' = k then some v else BasicStateBag.GetOk rest k

/-- `state.Get(k)`: the value, or `nil` when the key is absent. -/
def BasicStateBag.Get (b : BasicStateBag) (k : String) : Value :=
  (BasicStateBag.GetOk b k).getD Value.nil

/-- `multistep.StateCancelled`. -/
def StateCancelled : String := "cancelled"

/-- `multistep.StateHalted`. -/
def StateHalted : String := "halted"

def qemuBuilderID : String := "transcend.qemu"
def fileBuilderID : String := "packer.file"
def artificeBuilderID : String := "packer.post-processor.artifice"

/-- The `common.PackerConfig` embedded in `Config`, handed to the runner as it is. -/
structure PackerConfig where
  PackerDebug : Bool
  PackerOnError : String
  deriving DecidableEq, Repr

/-- The fields of `Config` that `PostProcess` reads. -/
structure Config where
  APIKey : String
  APISecret : String
  APITimeout : Int
  ImageZone : String
  SOSEndpoint : String
  APIEnvironment : String
  PackerConfig : PackerConfig
  deriving DecidableEq, Repr

/-- An Exoscale API client handle. -/
structure ExoClient where
  handle : Nat
  deriving DecidableEq, Repr

/-- An `aws.Config` value. -/
structure AwsConfig where
  handle : Nat
  deriving DecidableEq, Repr

/-- An S3 client built from an `aws.Config`, with its `UsePathStyle` option. -/
structure S3Client where
  cfg : AwsConfig
  UsePathStyle : Bool
  deriving DecidableEq, Repr

/-- The address of a `PostProcessor`; steps and artifacts hold it as a pointer. -/
abbrev Ref := Nat

/-- The three step values of the pipeline, each with its `postProcessor` field. -/
inductive Step where
  | stepUploadImage (postProcessor : Ref)
  | stepRegisterTemplate (postProcessor : Ref)
  | stepCopyTemplate (postProcessor : Ref)
  deriving DecidableEq, Repr

/-- A `context.Context`, with the request endpoint `exoapi.WithEndpoint` attaches. -/
structure Context where
  cancelled : Bool
  endpoint : Option (String × String)
  deriving DecidableEq, Repr

/-- `exoapi.WithEndpoint(ctx, exoapi.NewReqEndpoint(env, zone))`. -/
def WithEndpoint (ctx : Context) (env zone : String) : Context :=
  { ctx with endpoint := some (env, zone) }

/-- The value `commonsteps.NewRunnerWithPauseFn(steps, config, ui, state)` returns,
as the record of what it was built from. -/
structure Runner where
  steps : List Step
  config : PackerConfig
  ui : Ui
  state : BasicStateBag
  deriving DecidableEq, Repr

/-- `commonsteps.NewRunnerWithPauseFn`. -/
def NewRunnerWithPauseFn (steps : List Step) (config : PackerConfig) (ui : Ui)
    (state : BasicStateBag) : Runner :=
  ⟨steps, config, ui, state⟩

/-- The struct `PostProcessor`; a nil pointer or nil interface is `none`. -/
structure PostProcessor where
  config : Option Config
  runner : Option Runner
  exo : Option ExoClient
  sos : Option S3Client
  deriving DecidableEq, Repr

/-- The struct `Artifact` this package returns, with the four fields
`PostProcess` fills in. -/
structure Artifact where
  StateData : List (String × Value)
  postProcessor : Ref
  state : BasicStateBag
  templates : List Template
  deriving DecidableEq, Repr

/-- The four results of `PostProcess`; a nil artifact or nil error is `none`. -/
structure Ret where
  artifact : Option Artifact
  keep : Bool
  forceOverride : Bool
  err : Option GoError
  deriving DecidableEq, Repr

/-- How a call ends: it returns, or it panics. -/
inductive Outcome where
  | ret (r : Ret)
  | panic
  deriving DecidableEq, Repr

/-- A call that leaves `PostProcess`. -/
inductive Event where
  | NewClient (apiKey apiSecret : String) (timeout : Int)
  | LoadDefaultConfig (region endpoint apiKey apiSecret : String)
  | NewFromConfig (cfg : AwsConfig)
  | NewStateBag
  | NewRunner (steps : List Step) (state : BasicStateBag)
  | Run (runner : Runner) (ctx : Context) (state : BasicStateBag)
  deriving DecidableEq, Repr

/-- The collaborators of `PostProcess` that are not code of this package. -/
structure Env where
  /-- `egoscale.NewClient(key, secret, ClientOptWithTimeout(d))`. -/
  NewClient : String → String → Int → Except GoError ExoClient
  /-- `awsconfig.LoadDefaultConfig` with region, endpoint and static credentials. -/
  LoadDefaultConfig : Context → String → String → String → String → Except GoError AwsConfig
  /-- `runner.Run(ctx, state)`: the contents of the bag when the runner returns. -/
  Run : Runner → Context → BasicStateBag → BasicStateBag
  /-- The Unicode tables behind `strconv.IsPrint` above Latin-1. -/
  isPrintWide : Char → Bool

/-- What a call of `PostProcess` leaves behind: the receiver, the calls it made,
and how it ended. -/
structure Result where
  p : PostProcessor
  trace : List Event
  out : Outcome

/-- Go `int64` wrap-around. -/
def wrapInt64 (x : Int) : Int := (x + 2 ^ 63) % 2 ^ 64 - 2 ^ 63

/-- `time.Second`, in nanoseconds. -/
def Second : Int := 1000000000

/-- The error of the `default` branch of the switch on the builder ID. -/
def unsupportedArtifactError (env : Env) (builderId : String) : GoError :=
  .errorString ("unsupported artifact type " ++ Quote env.isPrintWide builderId ++
    ": this post-processor only supports " ++
    "artifacts from QEMU/file builders and Artifice post-processor")

/-- The tail of `PostProcess`: what it reports once `p.runner.Run` is back,
from the contents `state` of the bag. -/
def report (self : Ref) (state : BasicStateBag) : Outcome :=
  match state.GetOk "error" with
  | some rawErr =>
    match rawErr.assertError with
    | some e => .ret ⟨none, false, false, some e⟩
    | none => .panic
  | none =>
    match state.GetOk StateCancelled with
    | some _ => .ret ⟨none, false, false, some (errorsNew "post-processing cancelled")⟩
    | none =>
      match state.GetOk StateHalted with
      | some _ => .ret ⟨none, false, false, some (errorsNew "post-processing halted")⟩
      | none =>
        match state.GetOk "templates" with
        | none =>
          .ret ⟨none, false, false, some (errorsNew "unable to find templates in state")⟩
        | some templates =>
          match templates.assertTemplates with
          | none => .panic
          | some ts =>
            .ret ⟨some
              { StateData := [("generated_data", state.Get "generated_data")]
                postProcessor := self
                state := state
                templates := ts },
              false, false, none⟩

/-- The bag `PostProcess` builds before the run. -/
def initialState (ui : Ui) (a : PackerArtifact) : BasicStateBag :=
  ((BasicStateBag.new.Put "ui" (.ui ui)).Put "artifact" (.artifact a)).Put "templates"
    (.templates [])

/-- The step list `PostProcess` builds. -/
def pipeline (self : Ref) : List Step :=
  [.stepUploadImage self, .stepRegisterTemplate self, .stepCopyTemplate self]

/-- The method `(p *PostProcessor) PostProcess(ctx, ui, a)`; `self` is the address
of the receiver and `p` its contents at the call. -/
def PostProcess (env : Env) (self : Ref) (p : PostProcessor) (ctx : Context) (ui : Ui)
    (a : PackerArtifact) : Result :=
  if a.BuilderId = qemuBuilderID ∨ a.BuilderId = fileBuilderID ∨
      a.BuilderId = artificeBuilderID then
    match p.config with
    | none => ⟨p, [], .panic⟩
    | some config =>
      let timeout := wrapInt64 (config.APITimeout * Second)
      let ev1 := Event.NewClient config.APIKey config.APISecret timeout
      match env.NewClient config.APIKey config.APISecret timeout with
      | .error err =>
        ⟨p, [ev1], .ret ⟨none, false, false,
          some (errorfWrap "unable to initialize Exoscale client: " err)⟩⟩
      | .ok exo =>
        let p1 := { p with exo := some exo }
        let ev2 := Event.LoadDefaultConfig config.ImageZone config.SOSEndpoint
          config.APIKey config.APISecret
        match env.LoadDefaultConfig ctx config.ImageZone config.SOSEndpoint
            config.APIKey config.APISecret with
        | .error err =>
          ⟨p1, [ev1, ev2], .ret ⟨none, false, false,
            some (errorfWrap "unable to initialize SOS client: " err)⟩⟩
        | .ok cfg =>
          let p2 := { p1 with sos := some ⟨cfg, true⟩ }
          let state := initialState ui a
          let steps := pipeline self
          let ctx1 := WithEndpoint ctx config.APIEnvironment config.ImageZone
          let runner := NewRunnerWithPauseFn steps config.PackerConfig ui state
          let p3 := { p2 with runner := some runner }
          let final := env.Run runner ctx1 state
          ⟨p3, [ev1, ev2, .NewFromConfig cfg, .NewStateBag, .NewRunner steps state,
              .Run runner ctx1 state],
            report self final⟩
  else
    ⟨p, [], .ret ⟨none, false, false, some (unsupportedArtifactError env a.BuilderId)⟩⟩

/-! ## Vocabulary of the statements -/

/-- The builder ID is one of the three the switch lets through. -/
def Whitelisted (builderId : String) : Prop :=
  builderId = "transcend.qemu" ∨ builderId = "packer.file" ∨
    builderId = "packer.post-processor.artifice"

instance (builderId : String) : Decidable (Whitelisted builderId) := by
  unfold Whitelisted; infer_instance

/-- The receiver is configured with `config` and both client constructors succeed,
giving `exo` and `cfg`. -/
def ClientsInitialise (env : Env) (p : PostProcessor) (ctx : Context) (config : Config)
    (exo : ExoClient) (cfg : AwsConfig) : Prop :=
  p.config = some config ∧
  env.NewClient config.APIKey config.APISecret (wrapInt64 (config.APITimeout * Second))
    = .ok exo ∧
  env.LoadDefaultConfig ctx config.ImageZone config.SOSEndpoint config.APIKey
    config.APISecret = .ok cfg

/-- The contents of the bag when `p.runner.Run(ctx, state)` is back. -/
def finalState (env : Env) (self : Ref) (config : Config) (ctx : Context) (ui : Ui)
    (a : PackerArtifact) : BasicStateBag :=
  env.Run (NewRunnerWithPauseFn (pipeline self) config.PackerConfig ui (initialState ui a))
    (WithEndpoint ctx config.APIEnvironment config.ImageZone) (initialState ui a)

/-- The bag respects the types the two unchecked assertions of `PostProcess` rely on:
what is stored under "error" is an `error`, what is stored under "templates" is a
`[]*egoscale.Template`. -/
def WellTyped (s : BasicStateBag) : Prop :=
  (∀ v, s.GetOk "error" = some v → ∃ e, v = .error e) ∧
  (∀ v, s.GetOk "templates" = some v → ∃ ts, v = .templates ts)

/-- None of the three terminal keys is set. -/
def NoFlag (s : BasicStateBag) : Prop :=
  s.GetOk "error" = none ∧ s.GetOk StateCancelled = none ∧ s.GetOk StateHalted = none

instance (s : BasicStateBag) : Decidable (NoFlag s) := by
  unfold NoFlag; infer_instance

/-- A builder ID made only of printable ASCII other than the double quote and the
backslash: the runes `%q` prints as they are. -/
def PlainASCII (s : String) : Prop :=
  ∀ c ∈ s.data, 0x20 ≤ c.toNat ∧ c.toNat < 0x7F ∧ c ≠ '"' ∧ c ≠ '\\'

/-! ## Concrete inputs -/

def config0 : Config :=
  ⟨"EXOkey", "secret", 30, "ch-gva-2", "https://sos-ch-gva-2.exo.io", "api", ⟨false, "cleanup"⟩⟩

def p0 : PostProcessor := ⟨some config0, none, none, none⟩

def ctx0 : Context := ⟨false, none⟩

def ui0 : Ui := ⟨"ui"⟩

def qemuArtifact : PackerArtifact := ⟨"transcend.qemu", ["output/disk.qcow2"], "VM"⟩

def dockerArtifact : PackerArtifact := ⟨"packer.post-processor.docker-import", [], "img"⟩

def tpl0 : Template := ⟨"t-1", "ch-gva-2"⟩

def tpl1 : Template := ⟨"t-2", "de-fra-1"⟩

/-- An environment whose clients initialise and whose runner turns the bag `s` it is
given into `f s`. -/
def envWith (f : BasicStateBag → BasicStateBag) : Env :=
  ⟨fun _ _ _ => .ok ⟨1⟩, fun _ _ _ _ _ => .ok ⟨2⟩, fun _ _ s => f s, fun _ => false⟩

/-- A run in which a step stores an error and the bag ends up cancelled and halted
as well. -/
def failedRun (s : BasicStateBag) : BasicStateBag :=
  ((s.Put "error" (.error (.errorString "upload failed"))).Put StateCancelled
    (.bool true)).Put StateHalted (.bool true)

/-- A run that is cancelled; the halted key is set too. -/
def cancelledRun (s : BasicStateBag) : BasicStateBag :=
  (s.Put StateCancelled (.bool true)).Put StateHalted (.bool true)

/-- A run that is halted without an error. -/
def haltedRun (s : BasicStateBag) : BasicStateBag :=
  s.Put StateHalted (.bool true)

/-- A run in which the steps record two templates and some generated data. -/
def successfulRun (s : BasicStateBag) : BasicStateBag :=
  (s.Put "templates" (.templates [tpl0, tpl1])).Put "generated_data"
    (.strMap [("ImageZone", "ch-gva-2")])

/-- A run that leaves the bag as `PostProcess` built it. -/
def idleRun (s : BasicStateBag) : BasicStateBag := s

/-- An environment whose Exoscale client cannot be built. -/
def envNoClient : Env :=
  ⟨fun _ _ _ => .error (.errorString "timeout value must be greater than 0"),
    fun _ _ _ _ _ => .ok ⟨2⟩, fun _ _ s => s, fun _ => false⟩

/-! ## How a call unfolds -/

/-- The switch on the builder ID is the membership test `Whitelisted`. -/
theorem whitelisted_iff (a : PackerArtifact) :
    (a.BuilderId = qemuBuilderID ∨ a.BuilderId = fileBuilderID ∨
      a.BuilderId = artificeBuilderID) ↔ Whitelisted a.BuilderId := by
  simp [Whitelisted, qemuBuilderID, fileBuilderID, artificeBuilderID]

/-- The `default` branch: the call returns at once. -/
theorem PostProcess_rejected (env : Env) (self : Ref) (p : PostProcessor) (ctx : Context)
    (ui : Ui) (a : PackerArtifact) (h : ¬ Whitelisted a.BuilderId) :
    PostProcess env self p ctx ui a =
      ⟨p, [], .ret ⟨none, false, false, some (unsupportedArtifactError env a.BuilderId)⟩⟩ := by
  have h1 := (whitelisted_iff a).not.mpr h
  unfold PostProcess
  rw [if_neg h1]

/-- With a whitelisted builder ID and both clients built, the call reaches the runner
and ends with `report` on what the runner left in the bag. -/
theorem PostProcess_run (env : Env) (self : Ref) (p : PostProcessor) (ctx : Context)
    (ui : Ui) (a : PackerArtifact) (config : Config) (exo : ExoClient) (cfg : AwsConfig)
    (hs : Whitelisted a.BuilderId) (hc : ClientsInitialise env p ctx config exo cfg) :
    PostProcess env self p ctx ui a =
      ⟨{ p with
          exo := some exo
          sos := some ⟨cfg, true⟩
          runner := some (NewRunnerWithPauseFn (pipeline self) config.PackerConfig ui
            (initialState ui a)) },
        [.NewClient config.APIKey config.APISecret (wrapInt64 (config.APITimeout * Second)),
          .LoadDefaultConfig config.ImageZone config.SOSEndpoint config.APIKey
            config.APISecret,
          .NewFromConfig cfg, .NewStateBag,
          .NewRunner (pipeline self) (initialState ui a),
          .Run (NewRunnerWithPauseFn (pipeline self) config.PackerConfig ui (initialState ui a))
            (WithEndpoint ctx config.APIEnvironment config.ImageZone) (initialState ui a)],
        report self (finalState env self config ctx ui a)⟩ := by
  obtain ⟨h1, h2, h3⟩ := hc
  have h0 := (whitelisted_iff a).mpr hs
  unfold PostProcess
  rw [if_pos h0]
  simp only [h1, h2, h3, finalState]

/-- The outcome of a call that reaches the runner. -/
theorem PostProcess_out (env : Env) (self : Ref) (p : PostProcessor) (ctx : Context)
    (ui : Ui) (a : PackerArtifact) (config : Config) (exo : ExoClient) (cfg : AwsConfig)
    (hs : Whitelisted a.BuilderId) (hc : ClientsInitialise env p ctx config exo cfg) :
    (PostProcess env self p ctx ui a).out = report self (finalState env self config ctx ui a) := by
  rw [PostProcess_run env self p ctx ui a config exo cfg hs hc]

/-- With "error" holding an error, `report` returns it. -/
theorem report_error (self : Ref) (s : BasicStateBag) (e : GoError)
    (h : s.GetOk "error" = some (.error e)) :
    report self s = .ret ⟨none, false, false, some e⟩ := by
  simp [report, h, Value.assertError]

/-- Without "error" and with the cancelled key set, `report` says cancelled. -/
theorem report_cancelled (self : Ref) (s : BasicStateBag) (v : Value)
    (he : s.GetOk "error" = none) (hc : s.GetOk StateCancelled = some v) :
    report self s =
      .ret ⟨none, false, false, some (errorsNew "post-processing cancelled")⟩ := by
  simp [report, he, hc]

/-- Without "error" and the cancelled key and with the halted key set, `report` says
halted. -/
theorem report_halted (self : Ref) (s : BasicStateBag) (v : Value)
    (he : s.GetOk "error" = none) (hc : s.GetOk StateCancelled = none)
    (hh : s.GetOk StateHalted = some v) :
    report self s = .ret ⟨none, false, false, some (errorsNew "post-processing halted")⟩ := by
  simp [report, he, hc, hh]

/-- Without any flag and without "templates", `report` returns the missing-templates
error. -/
theorem report_no_templates (self : Ref) (s : BasicStateBag) (hn : NoFlag s)
    (ht : s.GetOk "templates" = none) :
    report self s =
      .ret ⟨none, false, false, some (errorsNew "unable to find templates in state")⟩ := by
  obtain ⟨he, hc, hh⟩ := hn
  simp [report, he, hc, hh, ht]

/-- Without any flag and with a template list under "templates", `report` builds the
artifact. -/
theorem report_success (self : Ref) (s : BasicStateBag) (ts : List Template) (hn : NoFlag s)
    (ht : s.GetOk "templates" = some (.templates ts)) :
    report self s =
      .ret ⟨some ⟨[("generated_data", s.Get "generated_data")], self, s, ts⟩,
        false, false, none⟩ := by
  obtain ⟨he, hc, hh⟩ := hn
  simp [report, he, hc, hh, ht, Value.assertTemplates]

/-- Whenever `report` returns, both booleans are false. -/
theorem report_bools (self : Ref) (s : BasicStateBag) (r : Ret)
    (h : report self s = .ret r) : r.keep = false ∧ r.forceOverride = false := by
  unfold report at h
  repeat' split at h
  all_goals first
    | (cases h; exact ⟨rfl, rfl⟩)
    | cases h

/-- Whenever `report` returns, exactly one of the artifact and the error is nil. -/
theorem report_one_of (self : Ref) (s : BasicStateBag) (r : Ret)
    (h : report self s = .ret r) : (r.artifact = none ↔ r.err ≠ none) := by
  unfold report at h
  repeat' split at h
  all_goals first
    | (cases h; simp)
    | cases h

/-- When `report` returns an artifact, the error is nil, no flag is set and "templates"
is present. -/
theorem report_artifact (self : Ref) (s : BasicStateBag) (r : Ret)
    (h : report self s = .ret r) (hart : r.artifact ≠ none) :
    r.err = none ∧ NoFlag s ∧ s.GetOk "templates" ≠ none := by
  unfold report at h
  split at h
  · split at h
    · cases h; exact absurd rfl hart
    · cases h
  · rename_i he
    split at h
    · cases h; exact absurd rfl hart
    · rename_i hc
      split at h
      · cases h; exact absurd rfl hart
      · rename_i hh
        split at h
        · cases h; exact absurd rfl hart
        · rename_i templates ht
          split at h
          · cases h
          · cases h
            refine ⟨rfl, ⟨he, hc, hh⟩, ?_⟩
            rw [ht]
            exact Option.some_ne_none _

/-- With a whitelisted builder ID and a configured receiver, a failure to build the
Exoscale client ends the call with the wrapped error, the receiver untouched. -/
theorem PostProcess_no_exo (env : Env) (self : Ref) (p : PostProcessor) (ctx : Context)
    (ui : Ui) (a : PackerArtifact) (config : Config) (err : GoError)
    (hs : Whitelisted a.BuilderId) (hcfg : p.config = some config)
    (hexo : env.NewClient config.APIKey config.APISecret
      (wrapInt64 (config.APITimeout * Second)) = .error err) :
    PostProcess env self p ctx ui a =
      ⟨p, [.NewClient config.APIKey config.APISecret (wrapInt64 (config.APITimeout * Second))],
        .ret ⟨none, false, false,
          some (errorfWrap "unable to initialize Exoscale client: " err)⟩⟩ := by
  have h0 := (whitelisted_iff a).mpr hs
  unfold PostProcess
  rw [if_pos h0]
  simp only [hcfg, hexo]

/-- With the Exoscale client built, a failure to load the AWS configuration ends the
call with the wrapped error; the receiver keeps the Exoscale client. -/
theorem PostProcess_no_sos (env : Env) (self : Ref) (p : PostProcessor) (ctx : Context)
    (ui : Ui) (a : PackerArtifact) (config : Config) (exo : ExoClient) (err : GoError)
    (hs : Whitelisted a.BuilderId) (hcfg : p.config = some config)
    (hexo : env.NewClient config.APIKey config.APISecret
      (wrapInt64 (config.APITimeout * Second)) = .ok exo)
    (hsos : env.LoadDefaultConfig ctx config.ImageZone config.SOSEndpoint config.APIKey
      config.APISecret = .error err) :
    PostProcess env self p ctx ui a =
      ⟨{ p with exo := some exo },
        [.NewClient config.APIKey config.APISecret (wrapInt64 (config.APITimeout * Second)),
          .LoadDefaultConfig config.ImageZone config.SOSEndpoint config.APIKey
            config.APISecret],
        .ret ⟨none, false, false,
          some (errorfWrap "unable to initialize SOS client: " err)⟩⟩ := by
  have h0 := (whitelisted_iff a).mpr hs
  unfold PostProcess
  rw [if_pos h0]
  simp only [hcfg, hexo, hsos]

/-- Runes that `%q` leaves alone are appended as they are. -/
theorem foldl_appendEscapedRune_plain (wide : Char → Bool) (cs buf : List Char)
    (h : ∀ c ∈ cs, 0x20 ≤ c.toNat ∧ c.toNat < 0x7F ∧ c ≠ '"' ∧ c ≠ '\\') :
    cs.foldl (appendEscapedRune wide) buf = buf ++ cs := by
  induction cs generalizing buf with
  | nil => simp
  | cons c cs ih =>
    obtain ⟨h1, h2, h3, h4⟩ := h c (List.mem_cons_self c cs)
    have hstep : appendEscapedRune wide buf c = buf ++ [c] := by
      have hle : c.toNat ≤ 0xFF := by omega
      simp [appendEscapedRune, IsPrint, h3, h4, hle, h1, h2]
    rw [List.foldl_cons, hstep, ih _ (fun d hd => h d (List.mem_cons_of_mem c hd))]
    simp

/-- The quoted form of a plain builder ID is the ID between two double quotes. -/
theorem Quote_plain (wide : Char → Bool) (s : String) (h : PlainASCII s) :
    (Quote wide s).data = ['"'] ++ s.data ++ ['"'] := by
  simp [Quote, foldl_appendEscapedRune_plain wide s.data ['"'] h]

/-- The rejection message carries the quoted builder ID. -/
theorem unsupported_contains_quote (env : Env) (builderId : String) :
    Contains (unsupportedArtifactError env builderId).Error
      (Quote env.isPrintWide builderId) := by
  refine ⟨"unsupported artifact type ".data,
    (": this post-processor only supports " ++
      "artifacts from QEMU/file builders and Artifice post-processor").data, ?_⟩
  simp [unsupportedArtifactError, GoError.Error, String.data_append]

/-- For a plain builder ID the rejection message carries the ID itself. -/
theorem unsupported_contains_plain (env : Env) (builderId : String)
    (h : PlainASCII builderId) :
    Contains (unsupportedArtifactError env builderId).Error builderId := by
  have hq := unsupported_contains_quote env builderId
  unfold Contains at hq ⊢
  rw [Quote_plain env.isPrintWide builderId h] at hq
  exact List.IsInfix.trans ⟨['"'], ['"'], rfl⟩ hq

/-! ## The type check on the builder ID -/

/-- C1, as stated, fails: with builder ID `a"b` the call is rejected with the message
`unsupported artifact type "a\"b": ...`, in which `%q` has escaped the double quote,
so the message does not contain the builder ID. -/
theorem C1_counterexample :
    ¬ Whitelisted "a\"b" ∧
    (PostProcess (envWith idleRun) 7 p0 ctx0 ui0 ⟨"a\"b", [], ""⟩).out =
      .ret ⟨none, false, false, some (.errorString
        ("unsupported artifact type \"a\\\"b\": this post-processor only supports " ++
          "artifacts from QEMU/file builders and Artifice post-processor"))⟩ ∧
    ¬ Contains
      ("unsupported artifact type \"a\\\"b\": this post-processor only supports " ++
        "artifacts from QEMU/file builders and Artifice post-processor") "a\"b" := by
  refine ⟨by decide, by decide, ?_⟩
  set_option maxRecDepth 100000 in decide

/-- C1 (amended): the call ends in the rejection of the type check, with the receiver
untouched and no call made, exactly when the builder ID is none of "transcend.qemu",
"packer.file", "packer.post-processor.artifice"; for those three the check passes and
the function goes on to build the Exoscale client; for every other string, the empty
one included, it returns a nil artifact and a non-nil error whose message contains the
builder ID as `%q` prints it, and the ID itself whenever the ID is printable ASCII
without double quote or backslash. -/
theorem C1_type_check (env : Env) (self : Ref) (p : PostProcessor) (ctx : Context) (ui : Ui)
    (a : PackerArtifact) :
    (PostProcess env self p ctx ui a =
        ⟨p, [], .ret ⟨none, false, false, some (unsupportedArtifactError env a.BuilderId)⟩⟩ ↔
      ¬ Whitelisted a.BuilderId) ∧
    (Whitelisted a.BuilderId → ∀ config, p.config = some config →
      (PostProcess env self p ctx ui a).trace.head? =
        some (.NewClient config.APIKey config.APISecret
          (wrapInt64 (config.APITimeout * Second)))) ∧
    (¬ Whitelisted a.BuilderId →
      (∃ e, (PostProcess env self p ctx ui a).out = .ret ⟨none, false, false, some e⟩ ∧
        Contains e.Error (Quote env.isPrintWide a.BuilderId) ∧
        (PlainASCII a.BuilderId → Contains e.Error a.BuilderId))) := by
  have hgo : Whitelisted a.BuilderId → ∀ config, p.config = some config →
      (PostProcess env self p ctx ui a).trace.head? =
        some (.NewClient config.APIKey config.APISecret
          (wrapInt64 (config.APITimeout * Second))) := by
    intro hw config hcfg
    have h0 := (whitelisted_iff a).mpr hw
    unfold PostProcess
    rw [if_pos h0]
    simp only [hcfg]
    cases env.NewClient config.APIKey config.APISecret
        (wrapInt64 (config.APITimeout * Second)) with
    | error err => rfl
    | ok exo =>
      cases env.LoadDefaultConfig ctx config.ImageZone config.SOSEndpoint config.APIKey
          config.APISecret with
      | error err => rfl
      | ok cfg => rfl
  refine ⟨⟨?_, PostProcess_rejected env self p ctx ui a⟩, hgo, ?_⟩
  · intro h hw
    cases hcfg : p.config with
    | none =>
      have ho := congrArg Result.out h
      have h0 := (whitelisted_iff a).mpr hw
      unfold PostProcess at ho
      rw [if_pos h0] at ho
      simp [hcfg] at ho
    | some config =>
      have ht := hgo hw config hcfg
      rw [h] at ht
      simp at ht
  · intro hn
    refine ⟨unsupportedArtifactError env a.BuilderId, ?_,
      unsupported_contains_quote env a.BuilderId, unsupported_contains_plain env a.BuilderId⟩
    rw [PostProcess_rejected env self p ctx ui a hn]

/-- C1 (amended), at concrete inputs: the empty builder ID is rejected with a message
that contains `""`, and a QEMU artifact gets as far as the Exoscale client. -/
theorem C1_type_check_witness :
    PostProcess (envWith idleRun) 7 p0 ctx0 ui0 ⟨"", [], ""⟩ =
      ⟨p0, [], .ret ⟨none, false, false,
        some (unsupportedArtifactError (envWith idleRun) "")⟩⟩ ∧
    (PostProcess (envWith idleRun) 7 p0 ctx0 ui0 qemuArtifact).trace.head? =
      some (.NewClient "EXOkey" "secret" 30000000000) :=
  ⟨(C1_type_check (envWith idleRun) 7 p0 ctx0 ui0 ⟨"", [], ""⟩).1.mpr (by decide),
    (C1_type_check (envWith idleRun) 7 p0 ctx0 ui0 qemuArtifact).2.1 (by decide) config0 rfl⟩

/-- C7: an artifact whose builder ID is not whitelisted is rejected before any work:
the receiver comes back as it was, so its `exo`, `sos` and `runner` fields are
unchanged, and no call left the function: no client was built, no state bag and no
runner was made, and the runner, hence every step, was never started. -/
theorem C7_rejected_before_any_work (env : Env) (self : Ref) (p : PostProcessor)
    (ctx : Context) (ui : Ui) (a : PackerArtifact) (h : ¬ Whitelisted a.BuilderId) :
    (PostProcess env self p ctx ui a).p = p ∧
    (PostProcess env self p ctx ui a).p.exo = p.exo ∧
    (PostProcess env self p ctx ui a).p.sos = p.sos ∧
    (PostProcess env self p ctx ui a).p.runner = p.runner ∧
    (PostProcess env self p ctx ui a).trace = [] := by
  rw [PostProcess_rejected env self p ctx ui a h]
  exact ⟨rfl, rfl, rfl, rfl, rfl⟩

/-- C7 at a Docker artifact. -/
theorem C7_rejected_before_any_work_witness :
    ¬ Whitelisted dockerArtifact.BuilderId ∧
    (PostProcess (envWith successfulRun) 7 p0 ctx0 ui0 dockerArtifact).p = p0 ∧
    (PostProcess (envWith successfulRun) 7 p0 ctx0 ui0 dockerArtifact).trace = [] :=
  have h := C7_rejected_before_any_work (envWith successfulRun) 7 p0 ctx0 ui0 dockerArtifact
    (by decide)
  ⟨by decide, h.1, h.2.2.2.2⟩

/-! ## What is reported after the run -/

/-- C2: whenever the bag holds an error under "error" once the runner is back,
`PostProcess` returns a nil artifact and exactly that error, whatever the cancelled and
halted keys hold. -/
theorem C2_error_takes_precedence (env : Env) (self : Ref) (p : PostProcessor)
    (ctx : Context) (ui : Ui) (a : PackerArtifact) (config : Config) (exo : ExoClient)
    (cfg : AwsConfig) (sf : BasicStateBag) (e : GoError)
    (hs : Whitelisted a.BuilderId) (hc : ClientsInitialise env p ctx config exo cfg)
    (hf : finalState env self config ctx ui a = sf)
    (he : sf.GetOk "error" = some (.error e)) :
    (PostProcess env self p ctx ui a).out = .ret ⟨none, false, false, some e⟩ := by
  rw [PostProcess_out env self p ctx ui a config exo cfg hs hc, hf]
  exact report_error self sf e he

/-- C2 at a run that stored "upload failed" and is marked cancelled and halted too. -/
theorem C2_error_takes_precedence_witness :
    (finalState (envWith failedRun) 7 config0 ctx0 ui0 qemuArtifact).GetOk StateCancelled
      = some (.bool true) ∧
    (finalState (envWith failedRun) 7 config0 ctx0 ui0 qemuArtifact).GetOk StateHalted
      = some (.bool true) ∧
    (PostProcess (envWith failedRun) 7 p0 ctx0 ui0 qemuArtifact).out =
      .ret ⟨none, false, false, some (.errorString "upload failed")⟩ :=
  ⟨by decide, by decide,
    C2_error_takes_precedence (envWith failedRun) 7 p0 ctx0 ui0 qemuArtifact config0 ⟨1⟩ ⟨2⟩
      (finalState (envWith failedRun) 7 config0 ctx0 ui0 qemuArtifact)
      (.errorString "upload failed") (by decide) ⟨rfl, rfl, rfl⟩ rfl (by decide)⟩

/-- C3: the artifact is built only on success.  On every path on which `PostProcess`
returns, exactly one of the artifact and the error is non-nil, and a non-nil artifact
comes with a nil error and means that the builder ID is whitelisted, both clients were
built, none of "error", cancelled, halted is set in the final bag and "templates" is
present there.  An unsupported artifact and a failure to build either client each
return a nil artifact with a non-nil error.  For a supported artifact and any final
bag (whose "error" and "templates" entries, if any, have the Go types the function
asserts), it returns a non-nil artifact with a nil error exactly when none of "error",
cancelled, halted is set and "templates" is present; in every other case it returns a
nil artifact with a non-nil error. -/
theorem C3_artifact_only_on_success (env : Env) (self : Ref) (p : PostProcessor)
    (ctx : Context) (ui : Ui) (a : PackerArtifact) :
    (∀ r, (PostProcess env self p ctx ui a).out = .ret r →
      (r.artifact = none ↔ r.err ≠ none)) ∧
    (∀ r, (PostProcess env self p ctx ui a).out = .ret r → r.artifact ≠ none →
      r.err = none ∧ Whitelisted a.BuilderId ∧
      ∃ config exo cfg, ClientsInitialise env p ctx config exo cfg ∧
        NoFlag (finalState env self config ctx ui a) ∧
        (finalState env self config ctx ui a).GetOk "templates" ≠ none) ∧
    (¬ Whitelisted a.BuilderId →
      ∃ e, (PostProcess env self p ctx ui a).out = .ret ⟨none, false, false, some e⟩) ∧
    (∀ config err, Whitelisted a.BuilderId → p.config = some config →
      env.NewClient config.APIKey config.APISecret
        (wrapInt64 (config.APITimeout * Second)) = .error err →
      ∃ e, (PostProcess env self p ctx ui a).out = .ret ⟨none, false, false, some e⟩) ∧
    (∀ config exo err, Whitelisted a.BuilderId → p.config = some config →
      env.NewClient config.APIKey config.APISecret
        (wrapInt64 (config.APITimeout * Second)) = .ok exo →
      env.LoadDefaultConfig ctx config.ImageZone config.SOSEndpoint config.APIKey
        config.APISecret = .error err →
      ∃ e, (PostProcess env self p ctx ui a).out = .ret ⟨none, false, false, some e⟩) ∧
    (∀ config exo cfg sf, Whitelisted a.BuilderId →
      ClientsInitialise env p ctx config exo cfg →
      finalState env self config ctx ui a = sf → WellTyped sf →
      ((∃ art, (PostProcess env self p ctx ui a).out = .ret ⟨some art, false, false, none⟩) ↔
        (NoFlag sf ∧ sf.GetOk "templates" ≠ none)) ∧
      (¬ (NoFlag sf ∧ sf.GetOk "templates" ≠ none) →
        ∃ e, (PostProcess env self p ctx ui a).out = .ret ⟨none, false, false, some e⟩)) := by
  refine ⟨?_, ?_, ?_, ?_, ?_, ?_⟩
  · intro r h
    unfold PostProcess at h
    split at h
    · split at h
      · cases h
      · dsimp only at h
        split at h
        · cases h; simp
        · split at h
          · cases h; simp
          · exact report_one_of self _ r h
    · cases h; simp
  · intro r h hart
    by_cases hw : Whitelisted a.BuilderId
    · cases hcfg : p.config with
      | none =>
        have h0 := (whitelisted_iff a).mpr hw
        unfold PostProcess at h
        rw [if_pos h0] at h
        simp [hcfg] at h
      | some config =>
        cases hexo : env.NewClient config.APIKey config.APISecret
            (wrapInt64 (config.APITimeout * Second)) with
        | error err =>
          rw [PostProcess_no_exo env self p ctx ui a config err hw hcfg hexo] at h
          have hr := Outcome.ret.inj h
          subst hr
          exact absurd rfl hart
        | ok exo =>
          cases hsos : env.LoadDefaultConfig ctx config.ImageZone config.SOSEndpoint
              config.APIKey config.APISecret with
          | error err =>
            rw [PostProcess_no_sos env self p ctx ui a config exo err hw hcfg hexo hsos] at h
            have hr := Outcome.ret.inj h
            subst hr
            exact absurd rfl hart
          | ok cfg =>
            rw [PostProcess_out env self p ctx ui a config exo cfg hw ⟨hcfg, hexo, hsos⟩] at h
            obtain ⟨h1, h2, h3⟩ := report_artifact self _ r h hart
            exact ⟨h1, hw, config, exo, cfg, ⟨hcfg, hexo, hsos⟩, h2, h3⟩
    · rw [PostProcess_rejected env self p ctx ui a hw] at h
      have hr := Outcome.ret.inj h
      subst hr
      exact absurd rfl hart
  · intro hw
    rw [PostProcess_rejected env self p ctx ui a hw]
    exact ⟨_, rfl⟩
  · intro config err hw hcfg hexo
    rw [PostProcess_no_exo env self p ctx ui a config err hw hcfg hexo]
    exact ⟨_, rfl⟩
  · intro config exo err hw hcfg hexo hsos
    rw [PostProcess_no_sos env self p ctx ui a config exo err hw hcfg hexo hsos]
    exact ⟨_, rfl⟩
  · intro config exo cfg sf hs hc hf hw
    rw [PostProcess_out env self p ctx ui a config exo cfg hs hc, hf]
    obtain ⟨hwe, hwt⟩ := hw
    cases he : sf.GetOk "error" with
    | some v =>
      obtain ⟨e, rfl⟩ := hwe v he
      rw [report_error self sf e he]
      simp [NoFlag, he]
    | none =>
      cases hcn : sf.GetOk StateCancelled with
      | some v =>
        rw [report_cancelled self sf v he hcn]
        simp [NoFlag, hcn]
      | none =>
        cases hh : sf.GetOk StateHalted with
        | some v =>
          rw [report_halted self sf v he hcn hh]
          simp [NoFlag, hh]
        | none =>
          cases ht : sf.GetOk "templates" with
          | none =>
            rw [report_no_templates self sf ⟨he, hcn, hh⟩ ht]
            simp
          | some v =>
            obtain ⟨ts, rfl⟩ := hwt v ht
            rw [report_success self sf ts ⟨he, hcn, hh⟩ ht]
            simp [NoFlag, he, hcn, hh]

/-- C3 at a successful run, which gives an artifact and no error; at a halted run,
which gives an error and no artifact; and at a run whose Exoscale client cannot be
built, which gives an error and no artifact either. -/
theorem C3_artifact_only_on_success_witness :
    NoFlag (finalState (envWith successfulRun) 7 config0 ctx0 ui0 qemuArtifact) ∧
    (∃ art, (PostProcess (envWith successfulRun) 7 p0 ctx0 ui0 qemuArtifact).out =
      .ret ⟨some art, false, false, none⟩) ∧
    (∃ e, (PostProcess (envWith haltedRun) 7 p0 ctx0 ui0 qemuArtifact).out =
      .ret ⟨none, false, false, some e⟩) ∧
    (∃ e, (PostProcess envNoClient 7 p0 ctx0 ui0 qemuArtifact).out =
      .ret ⟨none, false, false, some e⟩) :=
  ⟨by decide,
    ((C3_artifact_only_on_success (envWith successfulRun) 7 p0 ctx0 ui0
      qemuArtifact).2.2.2.2.2 config0
      ⟨1⟩ ⟨2⟩ (finalState (envWith successfulRun) 7 config0 ctx0 ui0 qemuArtifact)
      (by decide) ⟨rfl, rfl, rfl⟩ rfl
      ⟨fun v h => absurd
          (h.symm.trans (by decide :
            (finalState (envWith successfulRun) 7 config0 ctx0 ui0 qemuArtifact).GetOk "error"
              = none))
          (Option.some_ne_none v),
        fun v h => ⟨[tpl0, tpl1], (Option.some.inj h).symm⟩⟩).1.mpr
      ⟨by decide, by decide⟩,
    ((C3_artifact_only_on_success (envWith haltedRun) 7 p0 ctx0 ui0
      qemuArtifact).2.2.2.2.2 config0
      ⟨1⟩ ⟨2⟩ (finalState (envWith haltedRun) 7 config0 ctx0 ui0 qemuArtifact)
      (by decide) ⟨rfl, rfl, rfl⟩ rfl
      ⟨fun v h => absurd
          (h.symm.trans (by decide :
            (finalState (envWith haltedRun) 7 config0 ctx0 ui0 qemuArtifact).GetOk "error"
              = none))
          (Option.some_ne_none v),
        fun v h => ⟨[], (Option.some.inj h).symm⟩⟩).2
      (fun h => absurd h.1.2.2 (by decide)),
    (C3_artifact_only_on_success envNoClient 7 p0 ctx0 ui0 qemuArtifact).2.2.2.1 config0
      (.errorString "timeout value must be greater than 0") (by decide) rfl rfl⟩

/-- C4: with no "error" key in the final bag, a set cancelled key makes `PostProcess`
return the error "post-processing cancelled", also when halted is set as well; with
cancelled unset and halted set it returns "post-processing halted"; and the two
messages differ. -/
theorem C4_cancelled_apart_from_halted (env : Env) (self : Ref) (p : PostProcessor)
    (ctx : Context) (ui : Ui) (a : PackerArtifact) (config : Config) (exo : ExoClient)
    (cfg : AwsConfig) (sf : BasicStateBag)
    (hs : Whitelisted a.BuilderId) (hc : ClientsInitialise env p ctx config exo cfg)
    (hf : finalState env self config ctx ui a = sf)
    (he : sf.GetOk "error" = none) :
    (sf.GetOk StateCancelled ≠ none →
      (PostProcess env self p ctx ui a).out =
        .ret ⟨none, false, false, some (.errorString "post-processing cancelled")⟩) ∧
    (sf.GetOk StateCancelled = none → sf.GetOk StateHalted ≠ none →
      (PostProcess env self p ctx ui a).out =
        .ret ⟨none, false, false, some (.errorString "post-processing halted")⟩) ∧
    (GoError.errorString "post-processing cancelled").Error ≠
      (GoError.errorString "post-processing halted").Error := by
  rw [PostProcess_out env self p ctx ui a config exo cfg hs hc, hf]
  refine ⟨?_, ?_, by decide⟩
  · intro hcn
    obtain ⟨v, hv⟩ := Option.ne_none_iff_exists'.mp hcn
    exact report_cancelled self sf v he hv
  · intro hcn hh
    obtain ⟨v, hv⟩ := Option.ne_none_iff_exists'.mp hh
    exact report_halted self sf v he hcn hv

/-- C4 at a run that is cancelled and halted, and at a run that is only halted. -/
theorem C4_cancelled_apart_from_halted_witness :
    (finalState (envWith cancelledRun) 7 config0 ctx0 ui0 qemuArtifact).GetOk StateHalted
      = some (.bool true) ∧
    (PostProcess (envWith cancelledRun) 7 p0 ctx0 ui0 qemuArtifact).out =
      .ret ⟨none, false, false, some (.errorString "post-processing cancelled")⟩ ∧
    (PostProcess (envWith haltedRun) 7 p0 ctx0 ui0 qemuArtifact).out =
      .ret ⟨none, false, false, some (.errorString "post-processing halted")⟩ :=
  ⟨by decide,
    (C4_cancelled_apart_from_halted (envWith cancelledRun) 7 p0 ctx0 ui0 qemuArtifact config0
      ⟨1⟩ ⟨2⟩ (finalState (envWith cancelledRun) 7 config0 ctx0 ui0 qemuArtifact)
      (by decide) ⟨rfl, rfl, rfl⟩ rfl (by decide)).1 (by decide),
    (C4_cancelled_apart_from_halted (envWith haltedRun) 7 p0 ctx0 ui0 qemuArtifact config0
      ⟨1⟩ ⟨2⟩ (finalState (envWith haltedRun) 7 config0 ctx0 ui0 qemuArtifact)
      (by decide) ⟨rfl, rfl, rfl⟩ rfl (by decide)).2.1 (by decide) (by decide)⟩

/-! ## The artifact that is returned -/

/-- C5, as stated, fails: when the runner leaves the bag as it was built, with no flag
and the empty list under "templates", `PostProcess` returns an artifact (with no
template) and a nil error. -/
theorem C5_counterexample :
    NoFlag (finalState (envWith idleRun) 7 config0 ctx0 ui0 qemuArtifact) ∧
    (finalState (envWith idleRun) 7 config0 ctx0 ui0 qemuArtifact).GetOk "templates"
      = some (.templates []) ∧
    (PostProcess (envWith idleRun) 7 p0 ctx0 ui0 qemuArtifact).out =
      .ret ⟨some ⟨[("generated_data", .nil)], 7, initialState ui0 qemuArtifact, []⟩,
        false, false, none⟩ := by
  refine ⟨by decide, by decide, by decide⟩

/-- C5 (amended): building the artifact fails when the "templates" key is absent: for
every final bag with no error, cancelled or halted flag and no "templates" key,
`PostProcess` returns no artifact but the error "unable to find templates in state";
when the list under "templates" is present and empty, `PostProcess` returns an
artifact with an empty template list and a nil error. -/
theorem C5_missing_templates (env : Env) (self : Ref) (p : PostProcessor)
    (ctx : Context) (ui : Ui) (a : PackerArtifact) (config : Config) (exo : ExoClient)
    (cfg : AwsConfig) (sf : BasicStateBag)
    (hs : Whitelisted a.BuilderId) (hc : ClientsInitialise env p ctx config exo cfg)
    (hf : finalState env self config ctx ui a = sf) (hn : NoFlag sf) :
    (sf.GetOk "templates" = none →
      (PostProcess env self p ctx ui a).out =
        .ret ⟨none, false, false,
          some (.errorString "unable to find templates in state")⟩) ∧
    (sf.GetOk "templates" = some (.templates []) →
      ∃ art, (PostProcess env self p ctx ui a).out = .ret ⟨some art, false, false, none⟩ ∧
        art.templates = []) := by
  rw [PostProcess_out env self p ctx ui a config exo cfg hs hc, hf]
  refine ⟨fun ht => report_no_templates self sf hn ht, fun ht => ?_⟩
  exact ⟨_, report_success self sf [] hn ht, rfl⟩

/-- A run whose steps delete the "templates" key. -/
theorem C5_missing_templates_witness :
    (PostProcess (envWith (fun _ => [])) 7 p0 ctx0 ui0 qemuArtifact).out =
      .ret ⟨none, false, false, some (.errorString "unable to find templates in state")⟩ :=
  (C5_missing_templates (envWith (fun _ => [])) 7 p0 ctx0 ui0 qemuArtifact config0 ⟨1⟩ ⟨2⟩
    [] (by decide) ⟨rfl, rfl, rfl⟩ rfl (by decide)).1 rfl

/-- C6: on success the artifact wraps the list under "templates" of the final bag as
it is: the same sequence, hence the same length, the same order and the same first
element. -/
theorem C6_templates_unchanged (env : Env) (self : Ref) (p : PostProcessor)
    (ctx : Context) (ui : Ui) (a : PackerArtifact) (config : Config) (exo : ExoClient)
    (cfg : AwsConfig) (sf : BasicStateBag) (ts : List Template)
    (hs : Whitelisted a.BuilderId) (hc : ClientsInitialise env p ctx config exo cfg)
    (hf : finalState env self config ctx ui a = sf) (hn : NoFlag sf)
    (ht : sf.GetOk "templates" = some (.templates ts)) :
    ∃ art, (PostProcess env self p ctx ui a).out = .ret ⟨some art, false, false, none⟩ ∧
      art.templates = ts ∧ art.templates.length = ts.length ∧
      (∀ i, art.templates.get? i = ts.get? i) ∧ art.templates.head? = ts.head? := by
  rw [PostProcess_out env self p ctx ui a config exo cfg hs hc, hf]
  exact ⟨_, report_success self sf ts hn ht, rfl, rfl, fun _ => rfl, rfl⟩

/-- C6 at a run that recorded the home-zone template and one copy. -/
theorem C6_templates_unchanged_witness :
    ∃ art, (PostProcess (envWith successfulRun) 7 p0 ctx0 ui0 qemuArtifact).out =
        .ret ⟨some art, false, false, none⟩ ∧
      art.templates = [tpl0, tpl1] ∧ art.templates.head? = some tpl0 :=
  have ⟨art, h1, h2, _, _, h5⟩ :=
    C6_templates_unchanged (envWith successfulRun) 7 p0 ctx0 ui0 qemuArtifact config0 ⟨1⟩ ⟨2⟩
      (finalState (envWith successfulRun) 7 config0 ctx0 ui0 qemuArtifact) [tpl0, tpl1]
      (by decide) ⟨rfl, rfl, rfl⟩ rfl (by decide) (by decide)
  ⟨art, h1, h2, h5⟩

/-- C8: on success the `StateData` of the artifact has the single key
"generated_data", and its value is what the final bag holds under "generated_data",
which is nil when nothing is stored there. -/
theorem C8_generated_data (env : Env) (self : Ref) (p : PostProcessor)
    (ctx : Context) (ui : Ui) (a : PackerArtifact) (config : Config) (exo : ExoClient)
    (cfg : AwsConfig) (sf : BasicStateBag) (ts : List Template)
    (hs : Whitelisted a.BuilderId) (hc : ClientsInitialise env p ctx config exo cfg)
    (hf : finalState env self config ctx ui a = sf) (hn : NoFlag sf)
    (ht : sf.GetOk "templates" = some (.templates ts)) :
    ∃ art, (PostProcess env self p ctx ui a).out = .ret ⟨some art, false, false, none⟩ ∧
      art.StateData.map Prod.fst = ["generated_data"] ∧
      (∀ v, sf.GetOk "generated_data" = some v → art.StateData = [("generated_data", v)]) ∧
      (sf.GetOk "generated_data" = none → art.StateData = [("generated_data", .nil)]) := by
  rw [PostProcess_out env self p ctx ui a config exo cfg hs hc, hf]
  refine ⟨_, report_success self sf ts hn ht, rfl, ?_, ?_⟩
  · intro v hv
    simp [BasicStateBag.Get, hv]
  · intro hv
    simp [BasicStateBag.Get, hv]

/-- C8 at a run that stored generated data, and at one that stored none. -/
theorem C8_generated_data_witness :
    (∃ art, (PostProcess (envWith successfulRun) 7 p0 ctx0 ui0 qemuArtifact).out =
        .ret ⟨some art, false, false, none⟩ ∧
      art.StateData = [("generated_data", .strMap [("ImageZone", "ch-gva-2")])]) ∧
    (∃ art, (PostProcess (envWith idleRun) 7 p0 ctx0 ui0 qemuArtifact).out =
        .ret ⟨some art, false, false, none⟩ ∧
      art.StateData = [("generated_data", .nil)]) :=
  have ⟨art, h1, _, h3, _⟩ :=
    C8_generated_data (envWith successfulRun) 7 p0 ctx0 ui0 qemuArtifact config0 ⟨1⟩ ⟨2⟩
      (finalState (envWith successfulRun) 7 config0 ctx0 ui0 qemuArtifact) [tpl0, tpl1]
      (by decide) ⟨rfl, rfl, rfl⟩ rfl (by decide) (by decide)
  have ⟨art0, k1, _, _, k4⟩ :=
    C8_generated_data (envWith idleRun) 7 p0 ctx0 ui0 qemuArtifact config0 ⟨1⟩ ⟨2⟩
      (finalState (envWith idleRun) 7 config0 ctx0 ui0 qemuArtifact) []
      (by decide) ⟨rfl, rfl, rfl⟩ rfl (by decide) (by decide)
  ⟨⟨art, h1, h3 _ (by decide)⟩, ⟨art0, k1, k4 (by decide)⟩⟩

/-! ## What the runner is given -/

/-- C9: for a supported artifact whose clients initialise, the runner is built from,
and stored in the receiver with, exactly the steps upload-image, register-template,
copy-template in that order, each holding the address of the receiver; it is run once,
as the last call, on the bag it was built with; and that bag holds the input artifact
under "artifact", the UI under "ui", the empty template list under "templates", and
none of the error, cancelled and halted keys. -/
theorem C9_pipeline_and_initial_state (env : Env) (self : Ref) (p : PostProcessor)
    (ctx : Context) (ui : Ui) (a : PackerArtifact) (config : Config) (exo : ExoClient)
    (cfg : AwsConfig)
    (hs : Whitelisted a.BuilderId) (hc : ClientsInitialise env p ctx config exo cfg) :
    ∃ runner ctx1 state,
      (PostProcess env self p ctx ui a).p.runner = some runner ∧
      (PostProcess env self p ctx ui a).trace.getLast? = some (.Run runner ctx1 state) ∧
      ((PostProcess env self p ctx ui a).trace.filter
        (fun ev => match ev with | .Run _ _ _ => true | _ => false)).length = 1 ∧
      runner.steps =
        [.stepUploadImage self, .stepRegisterTemplate self, .stepCopyTemplate self] ∧
      runner.state = state ∧
      state.GetOk "artifact" = some (.artifact a) ∧
      state.GetOk "ui" = some (.ui ui) ∧
      state.GetOk "templates" = some (.templates []) ∧
      state.GetOk "error" = none ∧
      state.GetOk StateCancelled = none ∧
      state.GetOk StateHalted = none := by
  rw [PostProcess_run env self p ctx ui a config exo cfg hs hc]
  refine ⟨_, _, _, rfl, rfl, rfl, rfl, rfl, ?_, ?_, ?_, ?_, ?_, ?_⟩ <;>
    simp [initialState, BasicStateBag.Put, BasicStateBag.GetOk, BasicStateBag.new,
      StateCancelled, StateHalted]

/-- C9 at a QEMU artifact. -/
theorem C9_pipeline_and_initial_state_witness :
    ∃ runner ctx1 state,
      (PostProcess (envWith successfulRun) 7 p0 ctx0 ui0 qemuArtifact).trace.getLast? =
        some (.Run runner ctx1 state) ∧
      runner.steps = [.stepUploadImage 7, .stepRegisterTemplate 7, .stepCopyTemplate 7] ∧
      state.GetOk "artifact" = some (.artifact qemuArtifact) :=
  have ⟨runner, ctx1, state, _, h2, _, h4, _, h6, _⟩ :=
    C9_pipeline_and_initial_state (envWith successfulRun) 7 p0 ctx0 ui0 qemuArtifact config0
      ⟨1⟩ ⟨2⟩ (by decide) ⟨rfl, rfl, rfl⟩
  ⟨runner, ctx1, state, h2, h4, h6⟩

/-! ## The two boolean results -/

/-- C10: on every path on which `PostProcess` returns (unsupported artifact, failure
to build either client, error, cancelled, halted, missing templates, success) both the
keep-input-artifact and the force-override result are false. -/
theorem C10_booleans_false (env : Env) (self : Ref) (p : PostProcessor) (ctx : Context)
    (ui : Ui) (a : PackerArtifact) (r : Ret)
    (h : (PostProcess env self p ctx ui a).out = .ret r) :
    r.keep = false ∧ r.forceOverride = false := by
  unfold PostProcess at h
  split at h
  · split at h
    · cases h
    · dsimp only at h
      split at h
      · cases h; exact ⟨rfl, rfl⟩
      · split at h
        · cases h; exact ⟨rfl, rfl⟩
        · exact report_bools self _ r h
  · cases h; exact ⟨rfl, rfl⟩

/-- C10 on the paths of a rejected artifact, a client that cannot be built, a failed
run, a cancelled run, a halted run, a run without templates, and a successful run. -/
theorem C10_booleans_false_witness :
    (∃ r, (PostProcess (envWith idleRun) 7 p0 ctx0 ui0 dockerArtifact).out = .ret r ∧
      r.keep = false ∧ r.forceOverride = false) ∧
    (∃ r, (PostProcess (envNoClient) 7 p0 ctx0 ui0 qemuArtifact).out = .ret r ∧
      r.keep = false ∧ r.forceOverride = false) ∧
    (∃ r, (PostProcess (envWith failedRun) 7 p0 ctx0 ui0 qemuArtifact).out = .ret r ∧
      r.keep = false ∧ r.forceOverride = false) ∧
    (∃ r, (PostProcess (envWith cancelledRun) 7 p0 ctx0 ui0 qemuArtifact).out = .ret r ∧
      r.keep = false ∧ r.forceOverride = false) ∧
    (∃ r, (PostProcess (envWith haltedRun) 7 p0 ctx0 ui0 qemuArtifact).out = .ret r ∧
      r.keep = false ∧ r.forceOverride = false) ∧
    (∃ r, (PostProcess (envWith (fun _ => [])) 7 p0 ctx0 ui0 qemuArtifact).out = .ret r ∧
      r.keep = false ∧ r.forceOverride = false) ∧
    (∃ r, (PostProcess (envWith successfulRun) 7 p0 ctx0 ui0 qemuArtifact).out = .ret r ∧
      r.keep = false ∧ r.forceOverride = false) :=
  ⟨⟨_, rfl, C10_booleans_false (envWith idleRun) 7 p0 ctx0 ui0 dockerArtifact _ rfl⟩,
    ⟨_, rfl, C10_booleans_false (envNoClient) 7 p0 ctx0 ui0 qemuArtifact _ rfl⟩,
    ⟨_, rfl, C10_booleans_false (envWith failedRun) 7 p0 ctx0 ui0 qemuArtifact _ rfl⟩,
    ⟨_, rfl, C10_booleans_false (envWith cancelledRun) 7 p0 ctx0 ui0 qemuArtifact _ rfl⟩,
    ⟨_, rfl, C10_booleans_false (envWith haltedRun) 7 p0 ctx0 ui0 qemuArtifact _ rfl⟩,
    ⟨_, rfl, C10_booleans_false (envWith (fun _ => [])) 7 p0 ctx0 ui0 qemuArtifact _ rfl⟩,
    ⟨_, rfl, C10_booleans_false (envWith successfulRun) 7 p0 ctx0 ui0 qemuArtifact _ rfl⟩⟩

end exoscaleimport
